import Mathlib

/-!
Shallow embedding of the reservation-lease and chat subsystems of the
student-marketplace front end, together with theorems checking the
specification's claims against the embedded code.

The embedded functions mirror the TypeScript sources
(`src/hooks/useReservations.tsx`, `src/hooks/useChat.tsx`,
`src/components/ContactSellerButton.tsx` and the ChatWindow page).
JavaScript `Date` parsing is modelled by an explicit parse function
`String → DateVal` (the result of `new Date(s).getTime()`), timestamps are
integer milliseconds, and JSON values are modelled by the `JsValue` type.
-/

/-- Result of evaluating `new Date(s).getTime()` in JavaScript: either `NaN`
(the string did not parse as a date) or a timestamp in milliseconds. -/
inductive DateVal where
  | nan
  | time (t : Int)
deriving DecidableEq

/-- `DateVal.isNaN d` models the `isNaN(...)` test on a `getTime()` result. -/
def DateVal.isNaN : DateVal → Bool
  | DateVal.nan => true
  | DateVal.time _ => false

/-- Model of JavaScript `String.prototype.trim`: drop leading and trailing
whitespace characters. -/
def jsTrim (s : String) : String :=
  String.mk (((s.data.dropWhile Char.isWhitespace).reverse.dropWhile Char.isWhitespace).reverse)

/-- Model of JavaScript `String.prototype.toUpperCase` (ASCII case mapping). -/
def jsToUpperCase (s : String) : String :=
  String.mk (s.data.map Char.toUpper)

/-- JavaScript falsiness of an optional string (`!x` for `x ?: string`):
true when the value is `undefined` or the empty string. -/
def jsStrOptFalsy : Option String → Bool
  | none => true
  | some s => s == ""

/-! ## `src/hooks/useReservations.tsx` -/

/-- The `Reservation` record type of `useReservations.tsx`. -/
structure Reservation where
  _id : String
  productId : String
  userId : String
  userName : Option String
  reservedAt : String
  expiresAt : String
  status : String
  durationMinutes : Int
deriving DecidableEq

/-- One hexadecimal digit, as matched by the character class `[0-9a-fA-F]`. -/
def isHexDigit (c : Char) : Bool :=
  c.isDigit || ('a' ≤ c && c ≤ 'f') || ('A' ≤ c && c ≤ 'F')

/-- `isValidObjectId` from `useReservations.tsx`: the regular expression
test for a 24-character hexadecimal string. -/
def isValidObjectId (id : String) : Bool :=
  id.data.length == 24 && id.data.all isHexDigit

/-- The `CreateReservationData` payload (`durationMinutes` is an arbitrary
number at runtime; the enumeration is enforced by the mutation). -/
structure CreateReservationData where
  productId : String
  durationMinutes : Int
deriving DecidableEq

/-- Outcome of the `useCreateReservation` mutation function: either one of
the two local validation throws (no request is sent) or the POST to
`/reservations` with the given payload. -/
inductive CreateReservationAction where
  | throwInvalidProductId
  | throwInvalidDuration
  | post (productId : String) (durationMinutes : Int)
deriving DecidableEq

/-- The `mutationFn` of `useCreateReservation`: validates the product id and
the duration locally before issuing any request. -/
def createReservationMutationFn (data : CreateReservationData) : CreateReservationAction :=
  if data.productId == "" || !(isValidObjectId data.productId) then
    CreateReservationAction.throwInvalidProductId
  else if data.durationMinutes == 0 || !([30, 60, 120, 1440].contains data.durationMinutes) then
    CreateReservationAction.throwInvalidDuration
  else
    CreateReservationAction.post data.productId data.durationMinutes

/-- `isReservationExpired` from `useReservations.tsx`: an empty or
unparsable expiry string counts as expired; otherwise the reservation is
expired when `expiryTime < Date.now()`. -/
def isReservationExpired (parse : String → DateVal) (now : Int) (expiresAt : String) : Bool :=
  if expiresAt == "" then true
  else
    match parse expiresAt with
    | DateVal.nan => true
    | DateVal.time expiryTime => decide (expiryTime < now)

/-- `isReservationActive` from `useReservations.tsx`: requires a present
reservation with truthy status and expiry, status string `ACTIVE` after
upper-casing, and a not-yet-expired expiry timestamp. -/
def isReservationActive (parse : String → DateVal) (now : Int)
    (reservation : Option Reservation) : Bool :=
  match reservation with
  | none => false
  | some r =>
    if r.status == "" || r.expiresAt == "" then false
    else (jsToUpperCase r.status == "ACTIVE") && !(isReservationExpired parse now r.expiresAt)

/-! ## JSON values and the `useMyReservations` query -/

/-- A JavaScript/JSON runtime value, as far as the validators inspect it. -/
inductive JsValue where
  | undef
  | null
  | bool (b : Bool)
  | num (n : Int)
  | str (s : String)
  | arr (elems : List JsValue)
  | obj (fields : List (String × JsValue))

/-- JavaScript truthiness of a `JsValue`. -/
def jsTruthy : JsValue → Bool
  | JsValue.undef => false
  | JsValue.null => false
  | JsValue.bool b => b
  | JsValue.num n => n != 0
  | JsValue.str s => s != ""
  | JsValue.arr _ => true
  | JsValue.obj _ => true

/-- Whether `typeof v` evaluates to the string `object` (true for `null`,
arrays and plain objects). -/
def jsTypeofObject : JsValue → Bool
  | JsValue.null => true
  | JsValue.arr _ => true
  | JsValue.obj _ => true
  | _ => false

/-- Property access `v[k]` for the named (non-index) keys the code reads;
absent properties are `undefined`. -/
def getField (v : JsValue) (k : String) : JsValue :=
  match v with
  | JsValue.obj fields => (fields.lookup k).getD JsValue.undef
  | _ => JsValue.undef

/-- The `k in v` test for the named keys the code uses (only ever evaluated
on truthy values of type `object`). -/
def hasField (v : JsValue) (k : String) : Bool :=
  match v with
  | JsValue.obj fields => (fields.lookup k).isSome
  | _ => false

/-- Whether a `JsValue` is a string (`typeof v === "string"`). -/
def JsValue.isStr : JsValue → Bool
  | JsValue.str _ => true
  | _ => false

/-- The underlying string of a string `JsValue` (only read after `isStr`). -/
def JsValue.asStr : JsValue → String
  | JsValue.str s => s
  | _ => ""

/-- `isValidReservation` from `useReservations.tsx`, applied to an unknown
runtime value: object check, five required string fields, a parsable
`expiresAt`, and — when `reservedAt` is a truthy string — a parsable
`reservedAt`. -/
def isValidReservation (parse : String → DateVal) (v : JsValue) : Bool :=
  if !(jsTruthy v) || !(jsTypeofObject v) then false
  else if !(getField v "_id").isStr || !(getField v "productId").isStr ||
          !(getField v "userId").isStr || !(getField v "status").isStr ||
          !(getField v "expiresAt").isStr then false
  else if (parse (getField v "expiresAt").asStr).isNaN then false
  else if jsTruthy (getField v "reservedAt") && (getField v "reservedAt").isStr then
    !(parse (getField v "reservedAt").asStr).isNaN
  else true

/-- Outcome of the `/reservations/my` fetch: the request either throws
(network or HTTP error) or resolves to some JSON value. -/
inductive FetchOutcome where
  | failure
  | success (response : JsValue)

/-- The `reservations` local of the `useMyReservations` query function:
an array response is taken as is; an object response with a `reservations`
array yields that array; every other shape yields `[]`. -/
def extractReservations (response : JsValue) : List JsValue :=
  match response with
  | JsValue.arr elems => elems
  | _ =>
    if jsTruthy response && jsTypeofObject response && hasField response "reservations" then
      match getField response "reservations" with
      | JsValue.arr elems => elems
      | _ => []
    else []

/-- The `queryFn` of `useMyReservations`: on error return `[]`; otherwise
extract the reservation list from the response and keep only valid
reservations. -/
def myReservationsQueryFn (parse : String → DateVal) : FetchOutcome → List JsValue
  | FetchOutcome.failure => []
  | FetchOutcome.success response =>
    (extractReservations response).filter (isValidReservation parse)

/-! ## `src/hooks/useChat.tsx` -/

/-- The `Message` record type of `useChat.tsx`. -/
structure Message where
  _id : String
  chatId : String
  senderId : String
  senderName : String
  senderAvatar : Option String
  receiverId : String
  message : String
  createdAt : String
  delivered : Bool
  read : Bool
deriving DecidableEq

/-- The cache updater installed by `handleReceiveMessage` in
`useChatSocket`: start a fresh list when the cache is absent, drop the
incoming message when its id is already present, append it otherwise. -/
def handleReceiveMessage (message : Message) (old : Option (List Message)) : List Message :=
  match old with
  | none => [message]
  | some cached =>
    if cached.any (fun m => m._id == message._id) then cached
    else cached ++ [message]

/-- Payload of the `send_message` socket event. -/
structure SendMessagePayload where
  chatId : String
  message : String
deriving DecidableEq

/-- `sendMessage` from `useChatSocket`: emit nothing unless the socket
exists, the chat id is truthy, the socket is connected and the trimmed
message is non-empty; otherwise emit the trimmed message. -/
def sendMessage (socketPresent : Bool) (chatId : Option String) (isConnected : Bool)
    (message : String) : Option SendMessagePayload :=
  if socketPresent == false then none
  else
    match chatId with
    | none => none
    | some cid =>
      if cid == "" then none
      else if isConnected == false then none
      else if jsTrim message == "" then none
      else some { chatId := cid, message := jsTrim message }

/-- `isChatExpired` from `useChat.tsx`: an empty or unparsable expiry string
counts as not expired; otherwise the chat is expired when
`expiryTime < Date.now()`. -/
def isChatExpired (parse : String → DateVal) (now : Int) (expiresAt : String) : Bool :=
  if expiresAt == "" then false
  else
    match parse expiresAt with
    | DateVal.nan => false
    | DateVal.time expiryTime => decide (expiryTime < now)

/-- `getChatExpiryDays` from `useChat.tsx`: `0` for an empty or unparsable
expiry string, otherwise `Math.ceil((expiryTime - now) / (1000*60*60*24))`. -/
def getChatExpiryDays (parse : String → DateVal) (now : Int) (expiresAt : String) : Int :=
  if expiresAt == "" then 0
  else
    match parse expiresAt with
    | DateVal.nan => 0
    | DateVal.time expiryTime =>
      ⌈(((expiryTime - now : Int) : ℚ) / (1000 * 60 * 60 * 24) : ℚ)⌉

namespace ChatWindow

/-- The message input of the ChatWindow page is rendered exactly when the
chat is not expired (`{!isExpired && (...)}` around the input card). -/
def chatInputRendered (parse : String → DateVal) (now : Int) (expiresAt : String) : Bool :=
  !(isChatExpired parse now expiresAt)

end ChatWindow

/-! ## `src/components/ContactSellerButton.tsx` -/

namespace ContactSellerButton

/-- Result of `createChat.mutateAsync`: either a resolved `Chat` (we track
its `_id`) or a rejection carrying an optional HTTP status and an optional
`data.chatId`. -/
inductive CreateChatResult where
  | ok (chatId : String)
  | err (status : Option Int) (dataChatId : Option String)
deriving DecidableEq

/-- Observable outcome of `handleSendMessage`: no request issued (empty
message), navigation to a chat with the pending initial message, or an
error toast. -/
inductive ContactSellerOutcome where
  | noRequest
  | navigate (chatId : String) (initialMessage : String)
  | errorToast
deriving DecidableEq

/-- Whether the create-chat request failed (the promise rejected and
control reached the `catch` block). -/
def CreateChatResult.isFailure : CreateChatResult → Bool
  | CreateChatResult.ok _ => false
  | CreateChatResult.err _ _ => true

/-- `handleSendMessage` from `ContactSellerButton.tsx`: an empty trimmed
message sends nothing; a resolved chat navigates to its id; a 409 rejection
whose `data.chatId` is present navigates to that existing chat; any other
rejection shows an error toast. -/
def handleSendMessage (message : String) (result : CreateChatResult) : ContactSellerOutcome :=
  if jsTrim message == "" then ContactSellerOutcome.noRequest
  else
    match result with
    | CreateChatResult.ok chatId => ContactSellerOutcome.navigate chatId (jsTrim message)
    | CreateChatResult.err status dataChatId =>
      match status, dataChatId with
      | some 409, some cid => ContactSellerOutcome.navigate cid (jsTrim message)
      | _, _ => ContactSellerOutcome.errorToast

end ContactSellerButton

/-! ## Lease manager (modelled from the spec)

The backend lease manager is not part of this front-end repository; only
its client and the spec describe it.  The following definitions are
modelled from the spec, faithful to §3 (Lease) and §4.1 (Lease Manager). -/

/-- Modelled from the spec: lease status, §3 — `status ∈ {ACTIVE, EXPIRED,
CANCELLED}`. -/
inductive LeaseStatus where
  | ACTIVE
  | EXPIRED
  | CANCELLED
deriving DecidableEq, BEq

/-- Modelled from the spec: a Lease record, §3 — identity, product and
holder references, creation timestamp, duration in minutes, computed expiry
timestamp and status. -/
structure Lease where
  id : String
  productId : String
  holderId : String
  createdAt : Int
  durationMinutes : Int
  expiresAt : Int
  status : LeaseStatus
deriving DecidableEq

/-- Whether a lease is an ACTIVE lease for the given product. -/
def isActiveForProduct (productId : String) (l : Lease) : Bool :=
  l.productId == productId && l.status == LeaseStatus.ACTIVE

/-- Modelled from the spec: `getLeaseForProduct`, §4.1 — the current ACTIVE
lease for a product, or none. -/
def activeLeaseFor (store : List Lease) (productId : String) : Option Lease :=
  store.find? (isActiveForProduct productId)

/-- The §3 invariant: for a given product, at most one lease is ACTIVE. -/
def atMostOneActive (store : List Lease) : Prop :=
  ∀ productId : String, store.countP (isActiveForProduct productId) ≤ 1

/-- Modelled from the spec: result of `createLease`, §4.1 — a new lease and
the updated store, a Conflict carrying the existing ACTIVE lease's id, or
an InvalidArgument rejection for an out-of-enum duration. -/
inductive CreateLeaseResult where
  | ok (lease : Lease) (store : List Lease)
  | conflict (existingLeaseId : String)
  | invalidArgument
deriving DecidableEq

/-- Modelled from the spec: `createLease(productId, holderId,
durationMinutes)`, §4.1 — rejects an out-of-enum duration with
InvalidArgument, rejects with Conflict (carrying the existing lease's id)
when an ACTIVE lease exists for the product, and otherwise records a new
ACTIVE lease expiring at `creation + duration`. -/
def createLease (store : List Lease) (productId holderId : String) (durationMinutes : Int)
    (newId : String) (now : Int) : CreateLeaseResult :=
  if !([30, 60, 120, 1440].contains durationMinutes) then CreateLeaseResult.invalidArgument
  else
    match activeLeaseFor store productId with
    | some existing => CreateLeaseResult.conflict existing.id
    | none =>
      let lease : Lease :=
        { id := newId, productId := productId, holderId := holderId, createdAt := now,
          durationMinutes := durationMinutes, expiresAt := now + durationMinutes * 60000,
          status := LeaseStatus.ACTIVE }
      CreateLeaseResult.ok lease (lease :: store)

/-! ## Concrete parse functions used by witnesses and counterexamples -/

/-- A date parser that maps every string to the timestamp 1000 ms. -/
def parseAt1000 : String → DateVal := fun _ => DateVal.time 1000

/-- A date parser that fails on every string. -/
def parseNone : String → DateVal := fun _ => DateVal.nan

/-- A sample cached message, used by witnesses. -/
def msgA : Message :=
  { _id := "m1", chatId := "c1", senderId := "u1", senderName := "Alice",
    senderAvatar := none, receiverId := "u2", message := "hello",
    createdAt := "2024-01-01T00:00:00Z", delivered := true, read := false }

/-- A sample incoming message with a fresh id, used by witnesses. -/
def msgB : Message :=
  { _id := "m2", chatId := "c1", senderId := "u2", senderName := "Bob",
    senderAvatar := none, receiverId := "u1", message := "hi", createdAt :=
    "2024-01-01T00:00:05Z", delivered := true, read := false }

/-- A sample ACTIVE lease on product `p1`, used by witnesses. -/
def leaseL1 : Lease :=
  { id := "L1", productId := "p1", holderId := "h1", createdAt := 0,
    durationMinutes := 30, expiresAt := 1800000, status := LeaseStatus.ACTIVE }

/-- A sample ACTIVE reservation whose expiry string parses, used by
counterexamples. -/
def resR1 : Reservation :=
  { _id := "r1", productId := "p1", userId := "u1", userName := none,
    reservedAt := "x", expiresAt := "x", status := "ACTIVE", durationMinutes := 30 }

/-! ## Claims -/

/-- Claim C10: an empty or unparsable expiry string is treated as expired
by `isReservationExpired` but as not expired (still live) by
`isChatExpired`. -/
theorem claim_C10_missing_date_asymmetry (parse : String → DateVal) (now : Int) (s : String)
    (h : s = "" ∨ parse s = DateVal.nan) :
    isReservationExpired parse now s = true ∧ isChatExpired parse now s = false := by
  by_cases hs : s = ""
  · subst hs
    exact ⟨rfl, rfl⟩
  · have hs2 : (s == "") = false := by simpa using hs
    rcases h with h | h
    · exact absurd h hs
    · exact ⟨by simp [isReservationExpired, hs2, h], by simp [isChatExpired, hs2, h]⟩

/-- Claim C10 witness: at the empty string, `isReservationExpired` is true
and `isChatExpired` is false. -/
theorem claim_C10_witness :
    isReservationExpired parseNone 0 "" = true ∧ isChatExpired parseNone 0 "" = false :=
  claim_C10_missing_date_asymmetry parseNone 0 "" (Or.inl rfl)

/-- Claim C2 counterexample: at the exact expiry instant (current time
equal to the expiry timestamp) `isReservationExpired` is still false and
`isReservationActive` is still true, so the on-read check is not
"true if and only if current time is greater than or equal to expiresAt". -/
theorem claim_C2_counterexample_expiry_boundary :
    (1000 : Int) ≤ 1000 ∧
    isReservationExpired parseAt1000 1000 "x" = false ∧
    isReservationActive parseAt1000 1000 (some resR1) = true := by
  refine ⟨le_refl _, by decide, by decide⟩

/-- Claim C2 (amended): for a valid expiry date, `isReservationExpired` is
true if and only if the current time is strictly greater than the expiry
timestamp, and consequently `isReservationActive` is false for any
reservation whose expiry instant has strictly passed, whatever its stored
status string. -/
theorem claim_C2_strict_expiry (parse : String → DateVal) (now : Int) (s : String) (t : Int)
    (hs : s ≠ "") (hp : parse s = DateVal.time t) :
    (isReservationExpired parse now s = true ↔ t < now) ∧
    ∀ r : Reservation, r.expiresAt = s → t < now →
      isReservationActive parse now (some r) = false := by
  have hs2 : (s == "") = false := by simpa using hs
  constructor
  · simp [isReservationExpired, hs2, hp]
  · intro r hre hlt
    by_cases hst : r.status == ""
    · simp [isReservationActive, hre, hs2, hst]
    · simp [isReservationActive, hre, hs2, hst, isReservationExpired, hp, hlt]

/-- Claim C2 witness: one millisecond past the expiry timestamp the
reservation is expired. -/
theorem claim_C2_witness : isReservationExpired parseAt1000 1001 "x" = true :=
  (claim_C2_strict_expiry parseAt1000 1001 "x" 1000 (by decide) rfl).1.mpr (by decide)

/-- Claim C3: for a valid expiry date, the client gate `isChatExpired` is
true exactly when the current time is strictly greater than the expiry
timestamp; strictly after expiry the ChatWindow message input is not
rendered, strictly before (for example at expiry minus one second) it is. -/
theorem claim_C3_chat_expiry_gate (parse : String → DateVal) (now : Int) (s : String) (t : Int)
    (hs : s ≠ "") (hp : parse s = DateVal.time t) :
    (isChatExpired parse now s = true ↔ t < now) ∧
    (t < now → ChatWindow.chatInputRendered parse now s = false) ∧
    (now < t → ChatWindow.chatInputRendered parse now s = true) ∧
    (now = t - 1000 → ChatWindow.chatInputRendered parse now s = true) := by
  have hs2 : (s == "") = false := by simpa using hs
  have hiff : isChatExpired parse now s = true ↔ t < now := by
    simp [isChatExpired, hs2, hp]
  refine ⟨hiff, ?_, ?_, ?_⟩
  · intro hlt
    simp [ChatWindow.chatInputRendered, hiff.mpr hlt]
  · intro hlt
    have : isChatExpired parse now s = false := by
      simp [isChatExpired, hs2, hp]
      omega
    simp [ChatWindow.chatInputRendered, this]
  · intro heq
    have : isChatExpired parse now s = false := by
      simp [isChatExpired, hs2, hp]
      omega
    simp [ChatWindow.chatInputRendered, this]

/-- Claim C3 witness: one second before expiry the chat is not expired and
the message input is rendered. -/
theorem claim_C3_witness : ChatWindow.chatInputRendered parseAt1000 0 "x" = true :=
  (claim_C3_chat_expiry_gate parseAt1000 0 "x" 1000 (by decide) rfl).2.2.2 (by decide)

/-- Claim C5: the receive handler leaves the cached list unchanged when the
incoming message id is already present and appends the message at the end
otherwise; hence distinct ids stay distinct and previously received
messages keep their relative order. -/
theorem claim_C5_receive_dedup_append (cached : List Message) (m : Message) :
    ((∃ x ∈ cached, x._id = m._id) → handleReceiveMessage m (some cached) = cached) ∧
    ((∀ x ∈ cached, x._id ≠ m._id) → handleReceiveMessage m (some cached) = cached ++ [m]) ∧
    (handleReceiveMessage m (some cached) = cached ∨
      handleReceiveMessage m (some cached) = cached ++ [m]) ∧
    ((cached.map Message._id).Nodup →
      ((handleReceiveMessage m (some cached)).map Message._id).Nodup) := by
  by_cases h : cached.any (fun x => x._id == m._id)
  · have hres : handleReceiveMessage m (some cached) = cached := by
      simp only [handleReceiveMessage, if_pos h]
    obtain ⟨x, hx, hbeq⟩ := List.any_eq_true.mp h
    refine ⟨fun _ => hres, ?_, Or.inl hres, ?_⟩
    · intro hall
      exact absurd (by simpa using hbeq) (hall x hx)
    · intro hnd
      rwa [hres]
  · have hres : handleReceiveMessage m (some cached) = cached ++ [m] := by
      simp only [handleReceiveMessage, if_neg h]
    have hall : ∀ x ∈ cached, x._id ≠ m._id := by
      intro x hx heq
      exact h (List.any_eq_true.mpr ⟨x, hx, by simpa using heq⟩)
    refine ⟨?_, fun _ => hres, Or.inr hres, ?_⟩
    · intro hex
      obtain ⟨x, hx, heq⟩ := hex
      exact absurd heq (hall x hx)
    · intro hnd
      rw [hres, List.map_append]
      rw [List.nodup_append]
      refine ⟨hnd, List.nodup_singleton _, ?_⟩
      intro a ha hb
      simp only [List.map_cons, List.map_nil, List.mem_singleton] at hb
      subst hb
      obtain ⟨x, hx, hxid⟩ := List.mem_map.mp ha
      exact hall x hx hxid

/-- Claim C5 witness: a fresh message id is appended at the end of the
cached list. -/
theorem claim_C5_witness : handleReceiveMessage msgB (some [msgA]) = [msgA] ++ [msgB] :=
  (claim_C5_receive_dedup_append [msgA] msgB).2.1 (by decide)

/-- Claim C6: the create-reservation mutation throws locally (sending no
request) when the product id is not a 24-character hexadecimal string or
the duration is not one of 30, 60, 120, 1440 minutes, and issues the POST
exactly when both checks pass. -/
theorem claim_C6_create_reservation_validation (data : CreateReservationData) :
    (isValidObjectId data.productId = false →
      createReservationMutationFn data = CreateReservationAction.throwInvalidProductId) ∧
    (isValidObjectId data.productId = true →
      data.durationMinutes ∉ ([30, 60, 120, 1440] : List Int) →
      createReservationMutationFn data = CreateReservationAction.throwInvalidDuration) ∧
    (isValidObjectId data.productId = true →
      data.durationMinutes ∈ ([30, 60, 120, 1440] : List Int) →
      createReservationMutationFn data =
        CreateReservationAction.post data.productId data.durationMinutes) := by
  refine ⟨?_, ?_, ?_⟩
  · intro hbad
    simp [createReservationMutationFn, hbad]
  · intro hok hmem
    have hne : (data.productId == "") = false := by
      rcases hbe : data.productId == "" with _ | _
      · rfl
      · have : data.productId = "" := by simpa using hbe
        rw [this] at hok
        exact absurd hok (by decide)
    have hcon : ([30, 60, 120, 1440] : List Int).contains data.durationMinutes = false := by
      simpa using hmem
    unfold createReservationMutationFn
    rw [hne, hok, hcon]
    simp
  · intro hok hmem
    have hne : (data.productId == "") = false := by
      rcases hbe : data.productId == "" with _ | _
      · rfl
      · have : data.productId = "" := by simpa using hbe
        rw [this] at hok
        exact absurd hok (by decide)
    have hcon : ([30, 60, 120, 1440] : List Int).contains data.durationMinutes = true := by
      simpa using hmem
    have hnz : (data.durationMinutes == 0) = false := by
      have : data.durationMinutes ≠ 0 := by
        intro h0
        rw [h0] at hmem
        simp at hmem
      simpa using this
    unfold createReservationMutationFn
    rw [hne, hok, hcon, hnz]
    simp

/-- Claim C6 witness: a well-formed object id with duration 30 issues the
POST, and a bad duration with the same id throws before any request. -/
theorem claim_C6_witness :
    createReservationMutationFn { productId := "0123456789abcdef01234567", durationMinutes := 30 } =
      CreateReservationAction.post "0123456789abcdef01234567" 30 ∧
    createReservationMutationFn { productId := "0123456789abcdef01234567", durationMinutes := 45 } =
      CreateReservationAction.throwInvalidDuration :=
  ⟨(claim_C6_create_reservation_validation
      { productId := "0123456789abcdef01234567", durationMinutes := 30 }).2.2
      (by decide) (by decide),
    (claim_C6_create_reservation_validation
      { productId := "0123456789abcdef01234567", durationMinutes := 45 }).2.1
      (by decide) (by decide)⟩

/-- Claim C7: `sendMessage` emits a `send_message` payload only when the
socket is connected and the trimmed body is non-empty, the emitted body is
the trimmed input, and a whitespace-only or empty input emits nothing. -/
theorem claim_C7_no_empty_send (socketPresent : Bool) (chatId : Option String)
    (isConnected : Bool) (message : String) :
    (jsTrim message = "" → sendMessage socketPresent chatId isConnected message = none) ∧
    ∀ p, sendMessage socketPresent chatId isConnected message = some p →
      socketPresent = true ∧ isConnected = true ∧ jsTrim message ≠ "" ∧
      p.message = jsTrim message ∧ chatId = some p.chatId := by
  constructor
  · intro hempty
    cases socketPresent
    · rfl
    · cases chatId with
      | none => rfl
      | some cid =>
        by_cases hcid : cid == ""
        · simp [sendMessage, hcid]
        · cases isConnected
          · simp [sendMessage, hcid]
          · simp [sendMessage, hcid, hempty]
  · intro p hp
    cases socketPresent
    · exact absurd hp (by simp [sendMessage])
    · cases chatId with
      | none => exact absurd hp (by simp [sendMessage])
      | some cid =>
        by_cases hcid : cid == ""
        · exact absurd hp (by simp [sendMessage, hcid])
        · cases isConnected
          · exact absurd hp (by simp [sendMessage, hcid])
          · by_cases hmsg : jsTrim message == ""
            · exact absurd hp (by simp [sendMessage, hcid, hmsg])
            · have hres : sendMessage true (some cid) true message =
                  some { chatId := cid, message := jsTrim message } := by
                simp [sendMessage, hcid, hmsg]
              rw [hres] at hp
              obtain rfl := Option.some.inj hp
              exact ⟨rfl, rfl, by simpa using hmsg, rfl, rfl⟩

/-- Claim C7 witness: a whitespace-only message emits nothing, and a padded
message is emitted trimmed. -/
theorem claim_C7_witness : sendMessage true (some "c1") true "   " = none :=
  (claim_C7_no_empty_send true (some "c1") true "   ").1 (by decide)

/-- Claim C8: for a valid expiry date, `getChatExpiryDays` is the ceiling
of the remaining time divided by 86,400,000 ms; it is at least 1 strictly
before expiry, at most 0 once the expiry has passed, and 0 for an empty or
unparsable expiry string. -/
theorem claim_C8_expiry_days_ceiling (parse : String → DateVal) (now : Int) (s : String)
    (t : Int) (hs : s ≠ "") (hp : parse s = DateVal.time t) :
    getChatExpiryDays parse now s = ⌈(((t - now : Int) : ℚ) / (1000 * 60 * 60 * 24) : ℚ)⌉ ∧
    (now < t → 1 ≤ getChatExpiryDays parse now s) ∧
    (t ≤ now → getChatExpiryDays parse now s ≤ 0) ∧
    (∀ s2, s2 = "" ∨ parse s2 = DateVal.nan → getChatExpiryDays parse now s2 = 0) := by
  have hs2 : (s == "") = false := by simpa using hs
  have hval : getChatExpiryDays parse now s =
      ⌈(((t - now : Int) : ℚ) / (1000 * 60 * 60 * 24) : ℚ)⌉ := by
    simp [getChatExpiryDays, hs2, hp]
  refine ⟨hval, ?_, ?_, ?_⟩
  · intro hlt
    rw [hval]
    have hpos : (0 : ℚ) < ((t - now : Int) : ℚ) / (1000 * 60 * 60 * 24) := by
      apply div_pos
      · exact_mod_cast sub_pos.mpr hlt
      · norm_num
    have := Int.ceil_pos.mpr hpos
    omega
  · intro hle
    rw [hval]
    have hnp : ((t - now : Int) : ℚ) / (1000 * 60 * 60 * 24) ≤ 0 := by
      apply div_nonpos_of_nonpos_of_nonneg
      · exact_mod_cast sub_nonpos.mpr hle
      · norm_num
    exact Int.ceil_le.mpr (by exact_mod_cast hnp)
  · intro s2 h2
    rcases h2 with h2 | h2
    · subst h2
      rfl
    · by_cases hs3 : s2 = ""
      · subst hs3
        rfl
      · have hs4 : (s2 == "") = false := by simpa using hs3
        simp [getChatExpiryDays, hs4, h2]

/-- Claim C8 witness: with current time strictly before a parsed expiry
timestamp, the days-remaining annotation is at least 1. -/
theorem claim_C8_witness : (0 : Int) < 1000 ∧ 1 ≤ getChatExpiryDays parseAt1000 0 "x" :=
  ⟨by decide,
    (claim_C8_expiry_days_ceiling parseAt1000 0 "x" 1000 (by decide) rfl).2.1 (by decide)⟩

/-- Claim C4 counterexample: the pre-existing session case reaches the
existing chat through a failed request — a 409 rejection whose payload
carries the chat id — not through a successful response with a
`created=false` flag. -/
theorem claim_C4_counterexample_conflict_signal :
    ContactSellerButton.handleSendMessage "hi"
        (ContactSellerButton.CreateChatResult.err (some 409) (some "chat1")) =
      ContactSellerButton.ContactSellerOutcome.navigate "chat1" "hi" ∧
    (ContactSellerButton.CreateChatResult.err (some 409) (some "chat1")).isFailure = true := by
  exact ⟨by decide, rfl⟩

/-- Claim C4 (amended): a repeated create-chat request for an existing
session is rejected with a 409 Conflict carrying the existing chat id in
`error.data.chatId`; `handleSendMessage` catches it and navigates to that
chat, so the caller ends at the same session id as a request that created
the chat. -/
theorem claim_C4_conflict_navigation (message : String) (h : jsTrim message ≠ "") :
    (∀ cid, ContactSellerButton.handleSendMessage message
        (ContactSellerButton.CreateChatResult.ok cid) =
      ContactSellerButton.ContactSellerOutcome.navigate cid (jsTrim message)) ∧
    (∀ cid, ContactSellerButton.handleSendMessage message
        (ContactSellerButton.CreateChatResult.err (some 409) (some cid)) =
      ContactSellerButton.ContactSellerOutcome.navigate cid (jsTrim message)) ∧
    (∀ cid, ContactSellerButton.handleSendMessage message
        (ContactSellerButton.CreateChatResult.ok cid) =
      ContactSellerButton.handleSendMessage message
        (ContactSellerButton.CreateChatResult.err (some 409) (some cid))) := by
  have h2 : (jsTrim message == "") = false := by simpa using h
  refine ⟨?_, ?_, ?_⟩ <;> intro cid <;>
    simp [ContactSellerButton.handleSendMessage, h2]

/-- Claim C4 witness: a 409 rejection carrying chat id `c9` navigates to
chat `c9` with the trimmed pending message. -/
theorem claim_C4_witness :
    ContactSellerButton.handleSendMessage "hello"
        (ContactSellerButton.CreateChatResult.err (some 409) (some "c9")) =
      ContactSellerButton.ContactSellerOutcome.navigate "c9" "hello" := by
  have := (claim_C4_conflict_navigation "hello" (by decide)).2.1 "c9"
  simpa using this

/-- Claim C9: the my-reservations query maps a failed fetch to `[]`, maps
any response that is neither an array nor an object carrying a
`reservations` array to `[]`, and every element of any returned list
passes `isValidReservation`. -/
theorem claim_C9_my_reservations_sanitized (parse : String → DateVal) (resp : JsValue)
    (h1 : ∀ elems, resp ≠ JsValue.arr elems)
    (h2 : ∀ elems, getField resp "reservations" ≠ JsValue.arr elems) :
    myReservationsQueryFn parse (FetchOutcome.success resp) = [] ∧
    myReservationsQueryFn parse FetchOutcome.failure = [] ∧
    ∀ o v, v ∈ myReservationsQueryFn parse o → isValidReservation parse v = true := by
  refine ⟨?_, rfl, ?_⟩
  · have hextract : extractReservations resp = [] := by
      cases resp with
      | undef => rfl
      | null => rfl
      | bool b => cases b <;> rfl
      | num n =>
        show (if jsTruthy (JsValue.num n) && jsTypeofObject (JsValue.num n) &&
            hasField (JsValue.num n) "reservations" then _ else []) = []
        simp [jsTypeofObject]
      | str s =>
        show (if jsTruthy (JsValue.str s) && jsTypeofObject (JsValue.str s) &&
            hasField (JsValue.str s) "reservations" then _ else []) = []
        simp [jsTypeofObject]
      | arr elems => exact absurd rfl (h1 elems)
      | obj fields =>
        show (if jsTruthy (JsValue.obj fields) && jsTypeofObject (JsValue.obj fields) &&
            hasField (JsValue.obj fields) "reservations" then
              (match getField (JsValue.obj fields) "reservations" with
                | JsValue.arr elems => elems
                | _ => [])
            else []) = []
        cases hgf : getField (JsValue.obj fields) "reservations" with
        | arr elems => exact absurd hgf (h2 elems)
        | undef => simp
        | null => simp
        | bool b => simp
        | num n => simp
        | str s => simp
        | obj fields2 => simp
    show (extractReservations resp).filter (isValidReservation parse) = []
    rw [hextract]
    rfl
  · intro o v hv
    cases o with
    | failure => exact absurd hv (by simp [myReservationsQueryFn])
    | success r =>
      have hv2 : v ∈ (extractReservations r).filter (isValidReservation parse) := hv
      exact (List.mem_filter.mp hv2).2

/-- Claim C9 witness: a bare string response yields the empty list, as does
a failed fetch. -/
theorem claim_C9_witness :
    myReservationsQueryFn parseNone (FetchOutcome.success (JsValue.str "oops")) = [] ∧
    myReservationsQueryFn parseNone FetchOutcome.failure = [] := by
  have h := claim_C9_my_reservations_sanitized parseNone (JsValue.str "oops")
    (fun elems he => JsValue.noConfusion he) (fun elems he => JsValue.noConfusion he)
  exact ⟨h.1, h.2.1⟩

/-- Claim C1 (lease manager modelled from the spec): from a store with at
most one ACTIVE lease per product, a successful `createLease` preserves the
invariant, and while an ACTIVE lease exists for the product any create
attempt with an in-enum duration fails with a Conflict carrying the
existing lease's id. -/
theorem claim_C1_active_lease_uniqueness_and_conflict (store : List Lease)
    (productId holderId newId : String) (durationMinutes now : Int)
    (h : atMostOneActive store) :
    (∀ l s2, createLease store productId holderId durationMinutes newId now =
        CreateLeaseResult.ok l s2 → atMostOneActive s2) ∧
    (∀ existing, activeLeaseFor store productId = some existing →
      [30, 60, 120, 1440].contains durationMinutes = true →
      createLease store productId holderId durationMinutes newId now =
        CreateLeaseResult.conflict existing.id) := by
  constructor
  · intro l s2 hok
    unfold createLease at hok
    by_cases hdur : ([30, 60, 120, 1440] : List Int).contains durationMinutes
    · rw [hdur] at hok
      simp only [Bool.not_true, Bool.false_eq_true, if_false] at hok
      cases hfind : activeLeaseFor store productId with
      | some existing =>
        rw [hfind] at hok
        exact absurd hok (by simp)
      | none =>
        rw [hfind] at hok
        injection hok with h1 h2
        subst h1
        subst h2
        intro pid
        rw [List.countP_cons]
        by_cases hpid : pid = productId
        · subst hpid
          have hzero : store.countP (isActiveForProduct pid) = 0 := by
            rw [List.countP_eq_zero]
            intro a ha
            have := List.find?_eq_none.mp hfind a ha
            simpa using this
          rw [hzero]
          split <;> omega
        · have hnot : isActiveForProduct pid
              { id := newId, productId := productId, holderId := holderId, createdAt := now,
                durationMinutes := durationMinutes,
                expiresAt := now + durationMinutes * 60000,
                status := LeaseStatus.ACTIVE } = false := by
            simp only [isActiveForProduct]
            have : (productId == pid) = false := by
              simpa using fun he => hpid he.symm
            simp [this]
          rw [hnot]
          simpa using h pid
    · rw [(by simpa using hdur : ([30, 60, 120, 1440] : List Int).contains durationMinutes
          = false)] at hok
      exact absurd hok (by simp)
  · intro existing hfind hdur
    unfold createLease
    rw [hdur, hfind]
    simp

/-- Claim C1 witness: with an ACTIVE lease `L1` held on product `p1`, a
create attempt for `p1` is rejected with a Conflict carrying `L1`. -/
theorem claim_C1_witness :
    atMostOneActive [leaseL1] ∧
    createLease [leaseL1] "p1" "h2" 30 "L2" 5 = CreateLeaseResult.conflict "L1" := by
  have hinv : atMostOneActive [leaseL1] := fun pid =>
    le_trans (List.countP_le_length _) (by simp)
  refine ⟨hinv, ?_⟩
  have := (claim_C1_active_lease_uniqueness_and_conflict [leaseL1] "p1" "h2" "L2" 30 5
    hinv).2 leaseL1 rfl (by decide)
  simpa using this
